import Mathlib

/-!
Verification development for the crewai-marketing-team repository.

The Python sources are shallowly embedded:
pure string manipulation becomes structurally recursive functions on
character lists (mirroring the semantics of the Python string methods
actually used: split on a newline, lower, strip, join); the database is a
list of rows; the service's in-memory cancellation registry is an
association list with dictionary semantics; calls into the external
CrewAI library (crew construction and kickoff) and the database fetch of
the listing endpoint are oracles of type Except, an error standing for a
raised exception.  Timestamps are natural numbers (datetime.now() is
passed in as the argument now).

Concurrency: execute_task in task_service.py can observe the cancellation
flag flipped by a concurrently running cancel_task (the event loop may
interleave one at the await points).  A concurrent cancel flips the
registry entry to false and rewrites exactly the row fields (status,
completed_at, error_message) that the cancellation branches of
execute_task then overwrite, so its net effect on the final state is the
flag flip; it is modelled by the booleans cancel1 (a cancel lands before
the first checkpoint) and cancel2 (the flag reads false at the
post-pipeline checkpoint or in the exception handler).
-/

/-! ## Python string primitives, on character lists -/

/-- Python splitting on a single newline separator, the semantics of the
split calls in the source, as structural recursion on the characters.
The empty string yields one empty piece, like Python. -/
def splitNlChars : List Char → List (List Char)
  | [] => [[]]
  | c :: cs =>
    let r := splitNlChars cs
    if c = '\n' then [] :: r
    else
      match r with
      | [] => [[c]]
      | h :: t => (c :: h) :: t

/-- The lines of a string, Python result.split on a newline. -/
def pyLines (s : String) : List String :=
  (splitNlChars s.data).map (fun l => String.mk l)

/-- Character-list prefix test. -/
def isPrefixChars : List Char → List Char → Bool
  | [], _ => true
  | _ :: _, [] => false
  | p :: ps, c :: cs => p = c && isPrefixChars ps cs

/-- Character-list substring test. -/
def containsChars (pat : List Char) : List Char → Bool
  | [] => isPrefixChars pat []
  | c :: cs => isPrefixChars pat (c :: cs) || containsChars pat cs

/-- Python substring containment, pat in s. -/
def containsSub (s pat : String) : Bool :=
  containsChars pat.data s.data

/-- ASCII lower-casing of one character, the effect of Python str.lower on
the ASCII text this program matches against. -/
def lowerChar (c : Char) : Char :=
  if 'A' ≤ c && c ≤ 'Z' then Char.ofNat (c.toNat + 32) else c

/-- Python s.lower(). -/
def pyLower (s : String) : String :=
  String.mk (s.data.map lowerChar)

/-- The whitespace characters removed by Python str.strip(). -/
def pySpace (c : Char) : Bool :=
  c = ' ' || c = '\t' || c = '\n' || c = '\r' || c = '\x0b' || c = '\x0c'

/-- Python line.strip(): drop leading and trailing whitespace. -/
def pyStrip (s : String) : String :=
  String.mk (((s.data.dropWhile pySpace).reverse.dropWhile pySpace).reverse)

/-- Python "\n".join(xs). -/
def joinNl : List String → String
  | [] => ("")
  | [s] => s
  | s :: rest => s ++ ("\n") ++ joinNl rest

/-! ## marketing_crew.py — MarketingCrewService

The result bundle returned by execute_marketing_task is a Python dict;
it is embedded as a structure of optional fields, a field none standing
for an absent key, so that dict.get(key, default) becomes Option.getD. -/

/-- The result-bundle dict built by
MarketingCrewService.execute_marketing_task. -/
structure CrewResult where
  status : Option String
  topic : String
  result : Option String
  content_strategy : Option String
  social_media_posts : Option (List String)
  blog_outline : Option String
  campaign_ideas : Option (List String)
  error_message : Option String
deriving DecidableEq

/-- MarketingCrewService._extract_content_strategy: the whole transcript
when it mentions strategy or content, otherwise None. -/
def _extract_content_strategy (result : String) : Option String :=
  if containsSub (pyLower result) ("strategy") || containsSub (pyLower result) ("content") then
    some result
  else
    none

/-- Line filter of MarketingCrewService._extract_social_posts. -/
def isSocialLine (line : String) : Bool :=
  containsSub (pyLower line) ("instagram") || containsSub (pyLower line) ("twitter") ||
    containsSub (pyLower line) ("linkedin") || containsSub (pyLower line) ("facebook")

/-- The accumulation loop shared by _extract_social_posts and
_extract_campaign_ideas: for line in lines, if the line matches, append
line.strip(). -/
def stripFilterLoop (p : String → Bool) : List String → List String
  | [] => []
  | line :: rest =>
    if p line then pyStrip line :: stripFilterLoop p rest
    else stripFilterLoop p rest

/-- MarketingCrewService._extract_social_posts: matching lines, stripped,
first 7. -/
def _extract_social_posts (result : String) : List String :=
  (stripFilterLoop isSocialLine (pyLines result)).take 7

/-- MarketingCrewService._extract_blog_outline. -/
def _extract_blog_outline (result : String) : Option String :=
  if containsSub (pyLower result) ("blog") || containsSub (pyLower result) ("outline") then
    some result
  else
    none

/-- Line filter of MarketingCrewService._extract_campaign_ideas. -/
def isIdeaLine (line : String) : Bool :=
  containsSub (pyLower line) ("campaign") || containsSub (pyLower line) ("idea")

/-- MarketingCrewService._extract_campaign_ideas: matching lines,
stripped, first 5. -/
def _extract_campaign_ideas (result : String) : List String :=
  (stripFilterLoop isIdeaLine (pyLines result)).take 5

/-- MarketingCrewService.execute_marketing_task.  The two calls into the
external CrewAI library are oracles: construct is the outcome of
create_marketing_crew (an Except.error standing for a raised exception —
in the source this call sits OUTSIDE the try block), kickoff the outcome
of crew.kickoff() converted to a string (inside the try block).  An
Except.error result of the whole function models an exception raised
outward to the caller. -/
def execute_marketing_task (construct : Except String Unit)
    (kickoff : Except String String) (topic : String) : Except String CrewResult :=
  match construct with
  | Except.error e => Except.error e
  | Except.ok _ =>
    match kickoff with
    | Except.error e =>
      Except.ok
        { status := some ("failed"), topic := topic, result := none,
          content_strategy := none, social_media_posts := none,
          blog_outline := none, campaign_ideas := none,
          error_message := some e }
    | Except.ok result_str =>
      Except.ok
        { status := some ("completed"), topic := topic, result := some result_str,
          content_strategy := _extract_content_strategy result_str,
          social_media_posts := some (_extract_social_posts result_str),
          blog_outline := _extract_blog_outline result_str,
          campaign_ideas := some (_extract_campaign_ideas result_str),
          error_message := none }

/-! ## db_models.py / models.py — rows and API records -/

/-- The persisted MarketingTask row (db_models.py), without the internal
surrogate key, which no service code reads. -/
structure TaskRow where
  task_id : String
  topic : String
  status : String
  created_at : Nat
  completed_at : Option Nat
  result : Option String
  content_strategy : Option String
  social_media_posts : Option String
  blog_outline : Option String
  campaign_ideas : Option String
  error_message : Option String
  language : Option String
deriving DecidableEq

/-- The API-facing TaskResult record (models.py). -/
structure TaskResult where
  task_id : String
  topic : String
  status : String
  created_at : Nat
  completed_at : Option Nat
  content_strategy : Option String
  social_media_posts : Option (List String)
  blog_outline : Option String
  campaign_ideas : Option (List String)
  error_message : Option String
deriving DecidableEq

/-! ## task_service.py — TaskService -/

/-- The in-memory cancellation registry self._running_tasks, a Python
dict from task id to bool, kept as an association list with at most one
entry per key. -/
abbrev Registry := List (String × Bool)

/-- Dict write m[k] = v: replace the entry for k, or append one. -/
def rset (m : Registry) (k : String) (v : Bool) : Registry :=
  match m with
  | [] => [(k, v)]
  | (k', v') :: rest => if k' == k then (k, v) :: rest else (k', v') :: rset rest k v

/-- Dict read m.get(k, d). -/
def rget (m : Registry) (k : String) (d : Bool) : Bool :=
  (m.lookup k).getD d

/-- Dict removal m.pop(k, None). -/
def rpop (m : Registry) (k : String) : Registry :=
  m.filter (fun p => !(p.1 == k))

/-- The mutable state a TaskService call touches: the task table plus the
in-memory registry. -/
structure OrchState where
  db : List TaskRow
  running : Registry
deriving DecidableEq

/-- TaskService.get_task: select by task_id. -/
def get_task (db : List TaskRow) (task_id : String) : Option TaskRow :=
  db.find? (fun r => r.task_id == task_id)

/-- Commit of a mutated ORM row: replace the row with this task_id. -/
def updateRow (db : List TaskRow) (task_id : String) (f : TaskRow → TaskRow) : List TaskRow :=
  db.map (fun r => if r.task_id == task_id then f r else r)

/-- TaskService.cancel_task. -/
def cancel_task (s : OrchState) (task_id : String) (now : Nat) :
    OrchState × Option TaskRow :=
  match get_task s.db task_id with
  | none => (s, none)
  | some task =>
    if task.status == ("pending") || task.status == ("in_progress") then
      let task' := { task with
        status := ("cancelled"), completed_at := some now,
        error_message := some ("Task was cancelled by user") }
      ({ db := updateRow s.db task_id (fun _ => task'),
         running := rset s.running task_id false }, some task')
    else
      (s, some task)

/-- TaskService.execute_task.  pipeline is the outcome of the call into
MarketingCrewService.execute_marketing_task (Except.error standing for a
raised exception); now is datetime.now(); cancel1 and cancel2 are the
concurrency oracles described in the header (false everywhere gives the
purely sequential run). -/
def execute_task (s : OrchState) (task_id : String) (now : Nat)
    (pipeline : Except String CrewResult) (cancel1 cancel2 : Bool) :
    OrchState × Option TaskRow :=
  match get_task s.db task_id with
  | none => (s, none)
  | some task =>
    if task.status == ("cancelled") then (s, some task)
    else
      let running1 := rset s.running task_id true
      let task1 := { task with status := ("in_progress") }
      let db1 := updateRow s.db task_id (fun _ => task1)
      let running2 := if cancel1 then rset running1 task_id false else running1
      if rget running2 task_id false = false then
        let task2 := { task1 with
          status := ("cancelled"), completed_at := some now,
          error_message := some ("Task was cancelled before execution") }
        ({ db := updateRow db1 task_id (fun _ => task2), running := running2 }, some task2)
      else
        match pipeline with
        | Except.ok result =>
          let running3 := if cancel2 then rset running2 task_id false else running2
          if rget running3 task_id false = false then
            let task2 := { task1 with
              status := ("cancelled"), completed_at := some now,
              error_message := some ("Task was cancelled during execution") }
            ({ db := updateRow db1 task_id (fun _ => task2),
               running := rpop running3 task_id }, some task2)
          else
            let task2 := { task1 with
              status := result.status.getD ("failed"),
              completed_at := some now,
              result := some (result.result.getD ("")),
              content_strategy := result.content_strategy,
              social_media_posts := some (joinNl (result.social_media_posts.getD [])),
              blog_outline := result.blog_outline,
              campaign_ideas := some (joinNl (result.campaign_ideas.getD [])),
              error_message := result.error_message }
            ({ db := updateRow db1 task_id (fun _ => task2),
               running := rpop running3 task_id }, some task2)
        | Except.error e =>
          let running3 := if cancel2 then rset running2 task_id false else running2
          let task2 :=
            if rget running3 task_id false = false then
              { task1 with
                status := ("cancelled"),
                error_message := some ("Task was cancelled"), completed_at := some now }
            else
              { task1 with
                status := ("failed"), error_message := some e,
                completed_at := some now }
          ({ db := updateRow db1 task_id (fun _ => task2),
             running := rpop running3 task_id }, some task2)

/-- TaskService.get_all_tasks: every row ordered by created_at descending. -/
def get_all_tasks (db : List TaskRow) : List TaskRow :=
  db.mergeSort (fun a b => decide (b.created_at ≤ a.created_at))

/-- TaskService.task_to_result: project a row to the API record,
re-splitting the newline-joined text fields; a Python-falsy field (absent
or the empty string) projects to an absent sequence. -/
def task_to_result (task : TaskRow) : TaskResult :=
  { task_id := task.task_id,
    topic := task.topic,
    status := task.status,
    created_at := task.created_at,
    completed_at := task.completed_at,
    content_strategy := task.content_strategy,
    social_media_posts :=
      match task.social_media_posts with
      | some s => if s == ("") then none else some (pyLines s)
      | none => none,
    blog_outline := task.blog_outline,
    campaign_ideas :=
      match task.campaign_ideas with
      | some s => if s == ("") then none else some (pyLines s)
      | none => none,
    error_message := task.error_message }

/-- The GET /tasks handler list_tasks in main.py: fetch is the outcome of
retrieving and refreshing the rows (Except.error standing for any
exception raised while retrieving or converting); the handler catches it
and answers with the empty list. -/
def list_tasks (fetch : Except String (List TaskRow)) : List TaskResult :=
  match fetch with
  | Except.error _ => []
  | Except.ok rows => (get_all_tasks rows).map task_to_result

/-! ## Spec-side definition for the refinement comparison of claim C4 -/

/-- The social-posts artifact as the specification words it: the
order-preserving subsequence of the transcript's lines themselves (kept
verbatim), restricted to those mentioning a platform, truncated to the
first 7 matches.  Written from the spec's words, to be compared with the
source's _extract_social_posts. -/
def socialPostsClaimed (result : String) : List String :=
  ((pyLines result).filter isSocialLine).take 7

/-! ## Concrete sample data for witnesses and counterexamples -/

/-- A freshly created pending row. -/
def row0 : TaskRow :=
  { task_id := ("t1"), topic := ("eco"), status := ("pending"), created_at := 1,
    completed_at := none, result := none, content_strategy := none,
    social_media_posts := none, blog_outline := none, campaign_ideas := none,
    error_message := none, language := none }

/-- A row that already finished successfully. -/
def rowCompleted : TaskRow :=
  { row0 with status := ("completed"), completed_at := some 2, result := some ("old") }

/-- A cancelled row. -/
def rowCancelled : TaskRow :=
  { row0 with status := ("cancelled"), completed_at := some 2 }

/-- A one-row store with an empty registry, the row still pending. -/
def s0 : OrchState := { db := [row0], running := [] }

/-- The bundle execute_marketing_task returns when crew.kickoff raises
with message boom. -/
def failedBundle : CrewResult :=
  { status := some ("failed"), topic := ("eco"), result := none,
    content_strategy := none, social_media_posts := none, blog_outline := none,
    campaign_ideas := none, error_message := some ("boom") }

/-- A successful bundle whose post and idea extractions matched no lines. -/
def emptyExtractionBundle : CrewResult :=
  { status := some ("completed"), topic := ("eco"), result := some ("hello"),
    content_strategy := none, social_media_posts := some [], blog_outline := none,
    campaign_ideas := some [], error_message := none }

/-! ## Helper lemmas on the registry and the extraction loop -/

theorem lookup_rset_self (m : Registry) (k : String) (v : Bool) :
    (rset m k v).lookup k = some v := by
  induction m with
  | nil => simp [rset, List.lookup]
  | cons p rest ih =>
    by_cases hk : p.1 == k
    · simp [rset, hk, List.lookup]
    · have hne : p.1 ≠ k := by simpa using hk
      have hk2 : (k == p.1) = false := beq_eq_false_iff_ne.mpr (Ne.symm hne)
      simp [rset, hk, hk2, List.lookup, ih]

theorem rget_rset_self (m : Registry) (k : String) (v d : Bool) :
    rget (rset m k v) k d = v := by
  simp [rget, lookup_rset_self]

theorem lookup_rpop_self (m : Registry) (k : String) : (rpop m k).lookup k = none := by
  induction m with
  | nil => rfl
  | cons p rest ih =>
    by_cases hk : p.1 == k
    · simpa [rpop, List.filter_cons, hk] using ih
    · have hne : p.1 ≠ k := by simpa using hk
      have hk2 : (k == p.1) = false := beq_eq_false_iff_ne.mpr (Ne.symm hne)
      simpa [rpop, List.filter_cons, hk, hk2, List.lookup] using ih

theorem stripFilterLoop_eq_filter_map (p : String → Bool) (xs : List String) :
    stripFilterLoop p xs = (xs.filter p).map pyStrip := by
  induction xs with
  | nil => rfl
  | cons x xs ih => cases hx : p x <;> simp [stripFilterLoop, List.filter_cons, hx, ih]

/-! ## Claim theorems -/

/-- C1 counterexample: the claim says execute_marketing_task never raises
outward, even when pipeline construction fails.  In the source the
create_marketing_crew call sits outside the try block, so a construction
failure propagates as an exception instead of coming back as a failed
result bundle. -/
theorem construction_failure_raises :
    execute_marketing_task (Except.error ("boom")) (Except.ok ("x")) ("eco") =
      Except.error ("boom") := rfl

/-- C1 amended: a failure while constructing the pipeline propagates
outward; once construction succeeded the operation never raises — a
failure during pipeline execution yields a bundle with status failed, the
topic and the error text, and success yields a bundle with status
completed, the topic, the raw combined text and the four extracted
sub-artifacts. -/
theorem execute_marketing_task_outcomes :
    (∀ e k topic, execute_marketing_task (Except.error e) k topic = Except.error e) ∧
    (∀ e topic, execute_marketing_task (Except.ok ()) (Except.error e) topic =
      Except.ok { status := some ("failed"), topic := topic, result := none,
                  content_strategy := none, social_media_posts := none,
                  blog_outline := none, campaign_ideas := none,
                  error_message := some e }) ∧
    (∀ r topic, execute_marketing_task (Except.ok ()) (Except.ok r) topic =
      Except.ok { status := some ("completed"), topic := topic, result := some r,
                  content_strategy := _extract_content_strategy r,
                  social_media_posts := some (_extract_social_posts r),
                  blog_outline := _extract_blog_outline r,
                  campaign_ideas := some (_extract_campaign_ideas r),
                  error_message := none }) :=
  ⟨fun _ _ _ => rfl, fun _ _ => rfl, fun _ _ => rfl⟩

/-- C4 counterexample: the claim describes the social-posts artifact as a
subsequence of the transcript's lines, but the source appends
line.strip(), so a matching line with trailing whitespace comes back
stripped, not verbatim. -/
theorem social_posts_lines_are_stripped :
    _extract_social_posts ("Twitter: hi \nz") = [("Twitter: hi")] ∧
    socialPostsClaimed ("Twitter: hi \nz") = [("Twitter: hi ")] ∧
    _extract_social_posts ("Twitter: hi \nz") ≠ socialPostsClaimed ("Twitter: hi \nz") := by
  decide

/-- C4 amended: content-strategy and blog-outline are the entire
transcript exactly when it contains their keywords case-insensitively and
absent otherwise; the social-posts artifact is the order-preserving
sequence of matching lines each stripped of surrounding whitespace,
truncated to the first 7 matches, and the campaign-ideas artifact
likewise with its keywords and a cap of 5. -/
theorem extraction_rules (t : String) :
    _extract_content_strategy t =
      (if containsSub (pyLower t) ("strategy") || containsSub (pyLower t) ("content") then
        some t else none) ∧
    _extract_blog_outline t =
      (if containsSub (pyLower t) ("blog") || containsSub (pyLower t) ("outline") then
        some t else none) ∧
    _extract_social_posts t = (((pyLines t).filter isSocialLine).map pyStrip).take 7 ∧
    _extract_campaign_ideas t = (((pyLines t).filter isIdeaLine).map pyStrip).take 5 := by
  refine ⟨rfl, rfl, ?_, ?_⟩ <;>
    simp [_extract_social_posts, _extract_campaign_ideas, stripFilterLoop_eq_filter_map]

/-- C5: cancel_task cancels exactly the pending and in-progress rows —
setting status cancelled, completed_at to now, the fixed user-cancel
message, and the in-memory flag to false — returns any other row
unchanged, and returns absent for an unknown identifier. -/
theorem cancel_task_contract (s : OrchState) (task_id : String) (now : Nat) :
    (get_task s.db task_id = none → cancel_task s task_id now = (s, none)) ∧
    (∀ t, get_task s.db task_id = some t →
      ((t.status = ("pending") ∨ t.status = ("in_progress")) →
        cancel_task s task_id now =
          ({ db := updateRow s.db task_id (fun _ => { t with
               status := ("cancelled"), completed_at := some now,
               error_message := some ("Task was cancelled by user") }),
             running := rset s.running task_id false },
           some { t with
             status := ("cancelled"), completed_at := some now,
             error_message := some ("Task was cancelled by user") })) ∧
      (t.status ≠ ("pending") → t.status ≠ ("in_progress") →
        cancel_task s task_id now = (s, some t))) := by
  refine ⟨?_, ?_⟩
  · intro h
    simp [cancel_task, h]
  · intro t h
    refine ⟨?_, ?_⟩
    · intro hst
      rcases hst with h1 | h1 <;> simp [cancel_task, h, h1]
    · intro h1 h2
      simp [cancel_task, h, h1, h2]

/-- C5 witness: cancelling the sample pending row. -/
theorem cancel_task_contract_witness :
    cancel_task s0 ("t1") 5 =
      ({ db := updateRow s0.db ("t1") (fun _ => { row0 with
           status := ("cancelled"), completed_at := some 5,
           error_message := some ("Task was cancelled by user") }),
         running := rset s0.running ("t1") false },
       some { row0 with
         status := ("cancelled"), completed_at := some 5,
         error_message := some ("Task was cancelled by user") }) :=
  ((cancel_task_contract s0 ("t1") 5).2 row0 (by decide)).1 (Or.inl (by decide))

/-- C8: task_to_result splits a newline-joined text field back into the
ordered sequence of its lines and maps an absent text field to an absent
sequence, for both social_media_posts and campaign_ideas. -/
theorem task_to_result_split (r : TaskRow) :
    (task_to_result { r with social_media_posts := some ("line1\nline2\nline3") }).social_media_posts =
      some [("line1"), ("line2"), ("line3")] ∧
    (task_to_result { r with social_media_posts := none }).social_media_posts = none ∧
    (task_to_result { r with campaign_ideas := some ("line1\nline2\nline3") }).campaign_ideas =
      some [("line1"), ("line2"), ("line3")] ∧
    (task_to_result { r with campaign_ideas := none }).campaign_ideas = none := by
  have h1 : ((("line1\nline2\nline3") : String) == ("")) = false := by decide
  have h2 : pyLines ("line1\nline2\nline3") = [("line1"), ("line2"), ("line3")] := by decide
  refine ⟨?_, rfl, ?_, rfl⟩ <;> simp [task_to_result, h1, h2]

/-- C2 counterexample: the claim says every operation but deletion leaves
a terminal row unchanged, yet execute_task only guards against the
cancelled status — fed a completed row it re-runs the pipeline and
overwrites the row (here to failed). -/
theorem execute_task_reruns_completed_row :
    (execute_task { db := [rowCompleted], running := [] } ("t1") 9
        (Except.ok failedBundle) false false).2 =
      some { rowCompleted with
        status := ("failed"), completed_at := some 9,
        result := some (""), social_media_posts := some (""),
        campaign_ideas := some (""), error_message := some ("boom") } ∧
    execute_task { db := [rowCompleted], running := [] } ("t1") 9
        (Except.ok failedBundle) false false ≠
      ({ db := [rowCompleted], running := [] }, some rowCompleted) := by
  decide

/-- C2 amended: cancel_task is a no-op on every terminal row, and
execute_task is a no-op on a cancelled row; a completed or failed row fed
to execute_task is re-executed rather than left unchanged. -/
theorem terminal_rows_guard (s : OrchState) (task_id : String) (now : Nat)
    (pipeline : Except String CrewResult) (cancel1 cancel2 : Bool) (t : TaskRow)
    (h : get_task s.db task_id = some t) :
    ((t.status = ("completed") ∨ t.status = ("failed") ∨ t.status = ("cancelled")) →
      cancel_task s task_id now = (s, some t)) ∧
    (t.status = ("cancelled") →
      execute_task s task_id now pipeline cancel1 cancel2 = (s, some t)) := by
  constructor
  · intro hst
    rcases hst with h1 | h1 | h1 <;> simp [cancel_task, h, h1]
  · intro h1
    simp [execute_task, h, h1]

/-- C2 witness: the no-op branches at a concrete cancelled row. -/
theorem terminal_rows_guard_witness :
    cancel_task { db := [rowCancelled], running := [] } ("t1") 9 =
      ({ db := [rowCancelled], running := [] }, some rowCancelled) ∧
    execute_task { db := [rowCancelled], running := [] } ("t1") 9
        (Except.ok failedBundle) false false =
      ({ db := [rowCancelled], running := [] }, some rowCancelled) := by
  have h := terminal_rows_guard { db := [rowCancelled], running := [] } ("t1") 9
    (Except.ok failedBundle) false false rowCancelled (by decide)
  exact ⟨h.1 (Or.inr (Or.inr (by decide))), h.2 (by decide)⟩

/-- C3 counterexample: cancelling a pending task moves the stored status
to the terminal value cancelled but leaves an entry for the identifier in
the in-memory registry (set to false, not removed). -/
theorem cancel_task_keeps_registry_entry :
    ((cancel_task s0 ("t1") 5).2.map TaskRow.status) = some ("cancelled") ∧
    (cancel_task s0 ("t1") 5).1.running = [(("t1"), false)] := by
  decide

/-- C3 amended: on every execute_task run that reaches the pipeline call
(no concurrent cancel before the first checkpoint), the registry entry
for the identifier is removed by the time the operation returns — this
covers the completed, failed, during-execution-cancel and exception
paths.  cancel_task itself and the pre-pipeline cancellation checkpoint
instead leave an entry holding false. -/
theorem execute_task_pops_registry (s : OrchState) (task_id : String) (now : Nat)
    (pipeline : Except String CrewResult) (cancel2 : Bool) (t : TaskRow)
    (h : get_task s.db task_id = some t) (hst : t.status ≠ ("cancelled")) :
    ((execute_task s task_id now pipeline false cancel2).1.running).lookup task_id = none := by
  cases pipeline <;> cases cancel2 <;>
    simp [execute_task, h, hst, rget_rset_self, lookup_rpop_self]

/-- C3 witness: the registry is clean after a concrete successful run. -/
theorem execute_task_pops_registry_witness :
    ((execute_task s0 ("t1") 7 (Except.ok emptyExtractionBundle) false false).1.running).lookup
      ("t1") = none :=
  execute_task_pops_registry s0 ("t1") 7 (Except.ok emptyExtractionBundle) false row0
    (by decide) (by decide)

/-- C6: on the exception path of execute_task, an observed-false
cancellation flag yields status cancelled with the fixed message, an
observed-true flag yields status failed with the exception text, and
completed_at is set to now either way.  cancel2 is the oracle for the
flag read in the handler: true means a concurrent cancel flipped it to
false after the first checkpoint passed. -/
theorem execute_task_exception_path (s : OrchState) (task_id : String) (now : Nat)
    (e : String) (cancel2 : Bool) (t : TaskRow)
    (h : get_task s.db task_id = some t) (hst : t.status ≠ ("cancelled")) :
    (execute_task s task_id now (Except.error e) false cancel2).2 =
      some (if cancel2 then
        { t with
          status := ("cancelled"), error_message := some ("Task was cancelled"),
          completed_at := some now }
      else
        { t with
          status := ("failed"), error_message := some e,
          completed_at := some now }) := by
  cases cancel2 <;> simp [execute_task, h, hst, rget_rset_self]

/-- C6 witness: the spec scenario — the pipeline raises with message rate
limited while the flag is still true — persists failed, not cancelled. -/
theorem execute_task_exception_path_witness :
    (execute_task s0 ("t1") 7 (Except.error ("rate limited")) false false).2 =
      some { row0 with
        status := ("failed"), error_message := some ("rate limited"),
        completed_at := some 7 } := by
  simpa using execute_task_exception_path s0 ("t1") 7 ("rate limited") false row0
    (by decide) (by decide)

/-- C7 counterexample: after a successful run whose post and idea
extractions matched no lines, the stored text columns hold the empty
string — they are not absent as the claim states. -/
theorem empty_extraction_not_absent :
    ((execute_task s0 ("t1") 5 (Except.ok emptyExtractionBundle) false false).2.map
        TaskRow.social_media_posts) = some (some ("")) ∧
    ((execute_task s0 ("t1") 5 (Except.ok emptyExtractionBundle) false false).2.map
        TaskRow.campaign_ideas) = some (some ("")) := by
  decide

/-- C7 amended: when the extractions matched no lines the persisted
social_media_posts and campaign_ideas columns hold the empty string (the
newline-join of an empty list), and the projection to the API record maps
that Python-falsy value to an absent sequence, so only the API-facing
field is absent. -/
theorem empty_extraction_round_trip (s : OrchState) (task_id : String) (now : Nat)
    (res : CrewResult) (t : TaskRow)
    (h : get_task s.db task_id = some t) (hst : t.status ≠ ("cancelled"))
    (hsp : res.social_media_posts = some []) (hci : res.campaign_ideas = some []) :
    ((execute_task s task_id now (Except.ok res) false false).2.map
        TaskRow.social_media_posts) = some (some ("")) ∧
    ((execute_task s task_id now (Except.ok res) false false).2.map
        TaskRow.campaign_ideas) = some (some ("")) ∧
    ((execute_task s task_id now (Except.ok res) false false).2.map
        (fun r => (task_to_result r).social_media_posts)) = some none ∧
    ((execute_task s task_id now (Except.ok res) false false).2.map
        (fun r => (task_to_result r).campaign_ideas)) = some none := by
  refine ⟨?_, ?_, ?_, ?_⟩ <;>
    simp [execute_task, h, hst, rget_rset_self, hsp, hci, joinNl, task_to_result]

/-- C7 witness: the round trip at the concrete sample run. -/
theorem empty_extraction_round_trip_witness :
    ((execute_task s0 ("t1") 5 (Except.ok emptyExtractionBundle) false false).2.map
        (fun r => (task_to_result r).social_media_posts)) = some none ∧
    ((execute_task s0 ("t1") 5 (Except.ok emptyExtractionBundle) false false).2.map
        (fun r => (task_to_result r).campaign_ideas)) = some none := by
  have h := empty_extraction_round_trip s0 ("t1") 5 emptyExtractionBundle row0
    (by decide) (by decide) (by decide) (by decide)
  exact ⟨h.2.2.1, h.2.2.2⟩

/-- C10: persisting the failure bundle of the pipeline service (status
failed, topic, error message and nothing else) writes the empty string
into the result, social_media_posts and campaign_ideas columns, leaves
content_strategy and blog_outline absent, and the projection to the API
record turns the empty-string text fields into absent sequence fields, so
the API-facing record of the failed task exposes no empty-string artifact
and no one-element sequence holding the empty string. -/
theorem failed_bundle_persistence (s : OrchState) (task_id : String) (now : Nat)
    (topic msg : String) (bundle : CrewResult) (t : TaskRow)
    (hb : execute_marketing_task (Except.ok ()) (Except.error msg) topic = Except.ok bundle)
    (h : get_task s.db task_id = some t) (hst : t.status ≠ ("cancelled")) :
    ((execute_task s task_id now (Except.ok bundle) false false).2.map
        TaskRow.result) = some (some ("")) ∧
    ((execute_task s task_id now (Except.ok bundle) false false).2.map
        TaskRow.social_media_posts) = some (some ("")) ∧
    ((execute_task s task_id now (Except.ok bundle) false false).2.map
        TaskRow.campaign_ideas) = some (some ("")) ∧
    ((execute_task s task_id now (Except.ok bundle) false false).2.map
        TaskRow.content_strategy) = some none ∧
    ((execute_task s task_id now (Except.ok bundle) false false).2.map
        TaskRow.blog_outline) = some none ∧
    ((execute_task s task_id now (Except.ok bundle) false false).2.map
        TaskRow.status) = some ("failed") ∧
    ((execute_task s task_id now (Except.ok bundle) false false).2.map
        TaskRow.error_message) = some (some msg) ∧
    ((execute_task s task_id now (Except.ok bundle) false false).2.map
        (fun r => (task_to_result r).social_media_posts)) = some none ∧
    ((execute_task s task_id now (Except.ok bundle) false false).2.map
        (fun r => (task_to_result r).campaign_ideas)) = some none ∧
    ((execute_task s task_id now (Except.ok bundle) false false).2.map
        (fun r => (task_to_result r).content_strategy)) = some none := by
  have hb' := hb
  simp only [execute_marketing_task, Except.ok.injEq] at hb'
  subst hb'
  refine ⟨?_, ?_, ?_, ?_, ?_, ?_, ?_, ?_, ?_, ?_⟩ <;>
    simp [execute_task, h, hst, rget_rset_self, joinNl, task_to_result]

/-- C10 witness: the failure bundle with message boom persisted over the
sample pending row. -/
theorem failed_bundle_persistence_witness :
    ((execute_task s0 ("t1") 7 (Except.ok failedBundle) false false).2.map
        TaskRow.result) = some (some ("")) ∧
    ((execute_task s0 ("t1") 7 (Except.ok failedBundle) false false).2.map
        (fun r => (task_to_result r).social_media_posts)) = some none := by
  have h := failed_bundle_persistence s0 ("t1") 7 ("eco") ("boom") failedBundle row0
    rfl (by decide) (by decide)
  exact ⟨h.1, h.2.2.2.2.2.2.2.1⟩

/-- C9: the list-tasks endpoint never produces an error response — an
internal failure while retrieving or converting degrades to the empty
list, and otherwise the response is exactly the result records of every
persisted row, ordered by creation time descending. -/
theorem list_tasks_contract :
    (∀ e, list_tasks (Except.error e) = []) ∧
    (∀ rows, (list_tasks (Except.ok rows)).Perm (rows.map task_to_result) ∧
      List.Pairwise (fun a b : TaskResult => b.created_at ≤ a.created_at)
        (list_tasks (Except.ok rows))) := by
  constructor
  · intro e
    rfl
  · intro rows
    have htrans : ∀ a b c : TaskRow,
        (decide (b.created_at ≤ a.created_at)) = true →
        (decide (c.created_at ≤ b.created_at)) = true →
        (decide (c.created_at ≤ a.created_at)) = true := by
      intro a b c hab hbc
      simp only [decide_eq_true_eq] at hab hbc ⊢
      exact le_trans hbc hab
    have htotal : ∀ a b : TaskRow,
        ((decide (b.created_at ≤ a.created_at)) ||
          (decide (a.created_at ≤ b.created_at))) = true := by
      intro a b
      simp only [Bool.or_eq_true, decide_eq_true_eq]
      exact Nat.le_total b.created_at a.created_at
    constructor
    · simp only [list_tasks, get_all_tasks]
      exact List.Perm.map task_to_result (List.mergeSort_perm rows _)
    · simp only [list_tasks, get_all_tasks]
      have hs := @List.sorted_mergeSort TaskRow
        (fun a b => decide (b.created_at ≤ a.created_at)) htrans htotal rows
      exact List.Pairwise.map task_to_result
        (fun a b hab => by simpa [task_to_result] using hab) hs
